import Mathlib

set_option autoImplicit false
set_option maxRecDepth 40000

namespace Nodate

/-!
Shallow embedding of the Nodate STM32 peripheral driver layer
(src/arch/stm32/cpp/core/src/adc.cpp, src/arch/stm32/cpp/core/src/usart.cpp,
src/arch/stm32/cpp/libs/ADS1115/ADS1115.cpp), together with proofs about the
spec claims.  Machine integers are modelled as Nat with explicit masking where
overflow matters; status registers with write-1-to-clear semantics are modelled
explicitly.
-/

/-! ## Bit helpers -/

/-- The C idiom x &= ~m on fixed-width registers: clear in x every bit of m. -/
def clearBits (x m : Nat) : Nat := x ^^^ (x &&& m)

/-- Hardware write-1-to-clear register semantics: writing value v to a w1c
status register clears exactly the bits of v that were set, leaving the
others untouched. -/
def w1c (old v : Nat) : Nat := clearBits old v

theorem testBit_clearBits (x m : Nat) (i : Nat) :
    (clearBits x m).testBit i = (x.testBit i && !(m.testBit i)) := by
  simp only [clearBits, Nat.testBit_xor, Nat.testBit_and]
  cases x.testBit i <;> cases m.testBit i <;> rfl

theorem or_and_self_right (x m : Nat) : (x ||| m) &&& m = m := by
  apply Nat.eq_of_testBit_eq
  intro i
  simp only [Nat.testBit_and, Nat.testBit_or]
  cases x.testBit i <;> cases m.testBit i <;> rfl

theorem and_or_self_left (m x : Nat) : m &&& (x ||| m) = m := by
  apply Nat.eq_of_testBit_eq
  intro i
  simp only [Nat.testBit_and, Nat.testBit_or]
  cases x.testBit i <;> cases m.testBit i <;> rfl

theorem clearBits_and_eq_zero (x v m : Nat) (h : m &&& v = m) :
    clearBits x v &&& m = 0 := by
  apply Nat.eq_of_testBit_eq
  intro i
  have hb : (m.testBit i && v.testBit i) = m.testBit i := by
    have hh := congrArg (fun n => n.testBit i) h
    simp only [Nat.testBit_and] at hh
    exact hh
  simp only [Nat.testBit_and, testBit_clearBits, Nat.zero_testBit]
  cases hm : m.testBit i
  · simp
  · rw [hm] at hb
    simp only [Bool.true_and] at hb
    simp [hb]

/-! ## Timeout-bounded handshake (the busy-wait loop pattern of adc.cpp)

The source pattern is

  ts = McuCore::getSysTick();
  while (!predicate()) {
    if (((McuCore::getSysTick() - ts) > timeout) || timeout == 0) return false;
  }
  return true;

The tick source is modelled as monotonic and advancing by one tick at each
getSysTick call, so the k-th guard check observes elapsed time k while the
predicate sample of the same iteration was taken at elapsed time k - 1.
The awaited predicate first becomes true at elapsed tick T. -/

/-- One iteration of the busy-wait loop: s is the elapsed tick at which the
predicate is sampled; the following guard check observes elapsed tick s + 1.
Fuel makes termination structural; bound + 2 units are always sufficient. -/
def handshakeAux (T bound : Nat) : Nat → Nat → Bool
  | 0, _ => false
  | fuel + 1, s =>
    if T ≤ s then true
    else if bound < s + 1 ∨ bound = 0 then false
    else handshakeAux T bound fuel (s + 1)

/-- The busy-wait handshake: predicate first true at elapsed tick T, with the
given tick bound. -/
def handshake (T bound : Nat) : Bool := handshakeAux T bound (bound + 2) 0

theorem handshakeAux_true_of_le {T bound fuel s : Nat} (h : T ≤ s)
    (hf : 0 < fuel) : handshakeAux T bound fuel s = true := by
  cases fuel with
  | zero => omega
  | succ n => simp [handshakeAux, h]

theorem handshakeAux_reach {T bound : Nat} (hB : T ≤ bound) :
    ∀ fuel s, s ≤ T → T - s < fuel → handshakeAux T bound fuel s = true := by
  intro fuel
  induction fuel with
  | zero => intro s _ h; omega
  | succ n ih =>
    intro s hs hlt
    by_cases hTs : T ≤ s
    · simp [handshakeAux, hTs]
    · have hguard : ¬ (bound < s + 1 ∨ bound = 0) := by omega
      simp only [handshakeAux, if_neg hTs, if_neg hguard]
      exact ih (s + 1) (by omega) (by omega)

theorem handshakeAux_false_of_gt {T bound : Nat} (hB : bound < T) :
    ∀ fuel s, s < T → s ≤ bound → handshakeAux T bound fuel s = false := by
  intro fuel
  induction fuel with
  | zero => intro s _ _; rfl
  | succ n ih =>
    intro s hsT hsB
    have hTs : ¬ T ≤ s := by omega
    by_cases hguard : bound < s + 1 ∨ bound = 0
    · simp [handshakeAux, hTs, hguard]
    · simp only [handshakeAux, if_neg hTs, if_neg hguard]
      exact ih (s + 1) (by omega) (by omega)

/-- C1 (amended). The busy-wait handshake with predicate first true at elapsed
tick T and bound B succeeds if and only if T ≤ B or T = 0: the claim is right
that success is exactly T ≤ B for every bound, but a bound of 0 does not make
every call fail — when the predicate is already true at the first sample
(T = 0) the while condition is false and the guard is never consulted, so the
call still succeeds. -/
theorem C1_handshake_succeeds_iff (T B : Nat) :
    handshake T B = true ↔ (T ≤ B ∨ T = 0) := by
  constructor
  · intro h
    by_contra hc
    push_neg at hc
    have hBT : B < T := by omega
    have := handshakeAux_false_of_gt hBT (B + 2) 0 (by omega) (by omega)
    rw [handshake] at h
    rw [this] at h
    exact Bool.noConfusion h
  · intro h
    rcases h with hTB | hT0
    · exact handshakeAux_reach hTB (B + 2) 0 (by omega) (by omega)
    · exact handshakeAux_true_of_le (by omega) (by omega)

/-- C1 (counterexample). The claim states that the call fails whenever B = 0,
but with bound 0 and the predicate already true at the first sample (T = 0)
the source never enters the loop and returns true. -/
theorem C1_bound_zero_already_true_succeeds : handshake 0 0 = true := by decide

/-! ## STM32F0 ADC register map constants

Modelled from the spec: the CMSIS vendor device header is not part of src/;
the spec fixes the register wire contract as the vendor register map
(bit positions and field widths, bit-for-bit), so the STM32F0 reference
values are used. -/

def ADC_CR_ADEN : Nat := 1
def ADC_CR_ADDIS : Nat := 2
def ADC_CR_ADSTART : Nat := 4
def ADC_CR_ADSTP : Nat := 16
def ADC_CR_ADCAL : Nat := 2 ^ 31
def ADC_ISR_ADRDY : Nat := 1
def ADC_ISR_EOSMP : Nat := 2
def ADC_ISR_EOC : Nat := 4
def ADC_ISR_EOS : Nat := 8
def ADC_ISR_OVR : Nat := 16
def ADC_ISR_AWD1 : Nat := 128
def ADC_IER_ADRDYIE : Nat := 1
def ADC_IER_EOSMPIE : Nat := 2
def ADC_IER_EOCIE : Nat := 4
def ADC_IER_EOSEQIE : Nat := 8
def ADC_IER_OVRIE : Nat := 16
def ADC_IER_AWDIE : Nat := 128
def ADC_CFGR1_DMAEN : Nat := 1
def ADC_CFGR1_CONT : Nat := 2 ^ 13
def ADC_CFGR2_CKMODE : Nat := 3 * 2 ^ 30
def RCC_CR2_HSI14ON : Nat := 1
def RCC_CR2_HSI14RDY : Nat := 2

/-! ## ADC device state (adc.cpp) -/

/-- The six ADC event callbacks of the ADC_interrupts / callback set,
modelled by presence (a registered handler or not). -/
structure ADCCallbacks where
  watchdog : Bool
  overrun : Bool
  eoseq : Bool
  eoc : Bool
  eosmp : Bool
  ready : Bool
deriving DecidableEq

/-- The memory-mapped ADC register block of one device. -/
structure ADCRegs where
  cr : Nat
  isr : Nat
  ier : Nat
  cfgr1 : Nat
  cfgr2 : Nat
  chselr : Nat
  smpr : Nat
  dr : Nat
deriving DecidableEq

/-- One ADC_device record: register block plus the driver flags and the
registered callback set. -/
structure ADCDev where
  regs : ADCRegs
  active : Bool
  calibrated : Bool
  sampling : Bool
  cbs : ADCCallbacks
deriving DecidableEq

/-- The slice of RCC state touched by ADC::configure. -/
structure RccSt where
  cr2 : Nat
deriving DecidableEq

/-- ADC::calibrate.  tDis is the elapsed tick at which the hardware finishes
disabling the ADC after ADDIS is set; tCal the tick at which the hardware
clears ADCAL after calibration starts.  Both waits use the source bound 400. -/
def ADC.calibrate (tDis tCal : Nat) (d : ADCDev) : Bool × ADCDev :=
  let r0 := d.regs
  let r1 := if r0.cr &&& ADC_CR_ADEN != 0 then { r0 with cr := r0.cr ||| ADC_CR_ADDIS } else r0
  let tw1 := if r0.cr &&& ADC_CR_ADEN != 0 then tDis else 0
  if handshake tw1 400 then
    let r2 := { r1 with cr := clearBits r1.cr (ADC_CR_ADEN ||| ADC_CR_ADDIS) }
    let r3 := { r2 with cfgr1 := clearBits r2.cfgr1 ADC_CFGR1_DMAEN }
    let r4 := { r3 with cr := r3.cr ||| ADC_CR_ADCAL }
    if handshake tCal 400 then
      let r5 := { r4 with cr := clearBits r4.cr ADC_CR_ADCAL }
      (true, { d with regs := r5, calibrated := true })
    else (false, { d with regs := r4 })
  else (false, { d with regs := r1 })

/-- ADC::configure.  rccOk is the result of the Rcc::enable clock acquisition
(rcc.cpp is an external step here, surfaced as its boolean result); tHsi is
the elapsed tick at which the HSI14 oscillator reports ready; single selects
ADC_MODE_SINGLE. -/
def ADC.configure (tDis tCal : Nat) (rccOk : Bool) (tHsi : Nat) (single : Bool)
    (d : ADCDev) (rcc : RccSt) : Bool × ADCDev × RccSt :=
  if d.active then (true, d, rcc)
  else
    let c := if d.calibrated then (true, d) else ADC.calibrate tDis tCal d
    if c.1 then
      let d1 := c.2
      if rccOk then
        let r := { d1.regs with cfgr2 := clearBits d1.regs.cfgr2 ADC_CFGR2_CKMODE }
        let rcc1 : RccSt := { cr2 := rcc.cr2 ||| RCC_CR2_HSI14ON }
        let tw := if rcc1.cr2 &&& RCC_CR2_HSI14RDY != 0 then 0 else tHsi
        if handshake tw 400 then
          let rcc2 : RccSt := { cr2 := rcc1.cr2 ||| RCC_CR2_HSI14RDY }
          let r2 := if single then { r with cfgr1 := clearBits r.cfgr1 ADC_CFGR1_CONT }
            else { r with cfgr1 := r.cfgr1 ||| ADC_CFGR1_CONT }
          (true, { d1 with regs := r2, active := true }, rcc2)
        else (false, { d1 with regs := r }, rcc1)
      else (false, d1, rcc)
    else (false, c.2, rcc)

/-- GPIO::set_analog as called by ADC::channel: records that the pin has been
switched to analogue mode (gpio.cpp is an external step here; only the fact
that the pin mode changed matters). -/
def Gpio.set_analog (port pin : Nat) (g : List (Nat × Nat)) : List (Nat × Nat) :=
  (port, pin) :: g

/-- ADC::channel (external pin variant): the source checks pin > 18 before any
write, but checks time > 7 only after the pin was switched to analogue mode and
its CHSELR bit was set. -/
def ADC.channel (port pin time : Nat) (d : ADCDev) (g : List (Nat × Nat)) :
    Bool × ADCDev × List (Nat × Nat) :=
  if d.sampling then (false, d, g)
  else if 18 < pin then (false, d, g)
  else
    let g1 := Gpio.set_analog port pin g
    let d1 := { d with regs := { d.regs with chselr := d.regs.chselr ||| (1 <<< pin) } }
    if 7 < time then (false, d1, g1)
    else (true, { d1 with regs := { d1.regs with smpr := time } }, g1)

/-- The six ADC event kinds dispatched by the interrupt routine. -/
inductive ADCEvent where
  | watchdog
  | overrun
  | eoseq
  | eoc
  | eosmp
  | ready
deriving DecidableEq

/-- ADC1_IRQHandler over the current ISR value, returning the callback that was
invoked (if any) and the ISR value after the routine.  Each source condition is
written as in C, where equality binds tighter than the bitwise and: the test
regs->ISR & MASK == MASK parses as ISR & (MASK == MASK), and the branch is
taken when that value is nonzero.  Writes to ISR go through the hardware
write-1-to-clear semantics. -/
def ADC1_IRQHandler (isr : Nat) : Option ADCEvent × Nat :=
  if isr &&& (if ADC_ISR_AWD1 = ADC_ISR_AWD1 then 1 else 0) != 0 then
    (some ADCEvent.watchdog, w1c isr (isr ||| ADC_ISR_AWD1))
  else if isr &&& (if ADC_ISR_OVR = ADC_ISR_OVR then 1 else 0) != 0 then
    (some ADCEvent.overrun, w1c isr (isr ||| ADC_ISR_OVR))
  else if isr &&& (if ADC_ISR_EOS = ADC_ISR_EOS then 1 else 0) != 0 then
    (some ADCEvent.eoseq, w1c isr (isr ||| ADC_ISR_EOS))
  else if isr &&& (if ADC_ISR_EOC = ADC_ISR_EOC then 1 else 0) != 0 then
    if isr &&& (if ADC_ISR_EOC = ADC_ISR_EOC then 1 else 0) != 0 then
      (some ADCEvent.eoc, w1c isr (isr ||| ADC_ISR_EOC))
    else (some ADCEvent.eoc, isr)
  else if isr &&& (if ADC_ISR_EOSMP = ADC_ISR_EOSMP then 1 else 0) != 0 then
    (some ADCEvent.eosmp, w1c isr (isr ||| ADC_ISR_EOSMP))
  else if isr &&& (if ADC_ISR_ADRDY = ADC_ISR_ADRDY then 1 else 0) != 0 then
    (some ADCEvent.ready, w1c isr (isr ||| ADC_ISR_ADRDY))
  else (none, isr)

/-- ADC::enableInterrupt: the source walks the callback set in an if / else-if
chain, so at most one IER enable bit is ORed in, then stores the callback set;
the NVIC arming has no register-model effect here. -/
def ADC.enableInterrupt (cb : ADCCallbacks) (d : ADCDev) : Bool × ADCDev :=
  if d.sampling then (false, d)
  else
    let ier :=
      if cb.watchdog then d.regs.ier ||| ADC_IER_AWDIE
      else if cb.overrun then d.regs.ier ||| ADC_IER_OVRIE
      else if cb.eoseq then d.regs.ier ||| ADC_IER_EOSEQIE
      else if cb.eoc then d.regs.ier ||| ADC_IER_EOCIE
      else if cb.eosmp then d.regs.ier ||| ADC_IER_EOSMPIE
      else if cb.ready then d.regs.ier ||| ADC_IER_ADRDYIE
      else d.regs.ier
    (true, { d with regs := { d.regs with ier := ier }, cbs := cb })

/-- ADC::start.  tRdy is the elapsed tick at which the hardware raises ADRDY
after ADEN is set.  The stale-ADRDY clear is a write-1-to-clear ISR write of
ISR | ADRDY (the read-modify-write of the source). -/
def ADC.start (tRdy : Nat) (d : ADCDev) : Bool × ADCDev :=
  if !d.active then (false, d)
  else if !d.calibrated then (false, d)
  else
    let isr0 := if d.regs.isr &&& ADC_ISR_ADRDY != 0
      then w1c d.regs.isr (d.regs.isr ||| ADC_ISR_ADRDY) else d.regs.isr
    let cr1 := d.regs.cr ||| ADC_CR_ADEN
    let tw := if isr0 &&& ADC_ISR_ADRDY != 0 then 0 else tRdy
    if handshake tw 400 then
      (true, { d with regs := { d.regs with cr := cr1, isr := isr0 ||| ADC_ISR_ADRDY } })
    else (false, { d with regs := { d.regs with cr := cr1, isr := isr0 } })

/-- ADC::getValue.  tEoc is the elapsed tick at which the hardware raises EOC;
the successful path reads the data register exactly once (which clears EOC by
hardware) and clears the sampling flag; the out parameter is the third
component, none when it was never written. -/
def ADC.getValue (tEoc : Nat) (d : ADCDev) : Bool × ADCDev × Option Nat :=
  if !d.active then (false, d, none)
  else if !d.sampling then (false, d, none)
  else
    let tw := if d.regs.isr &&& ADC_ISR_EOC != 0 then 0 else tEoc
    if handshake tw 400 then
      let isr1 := clearBits (d.regs.isr ||| ADC_ISR_EOC) ADC_ISR_EOC
      (true, { d with regs := { d.regs with isr := isr1 }, sampling := false },
        some d.regs.dr)
    else (false, d, none)

theorem calibrate_preserves_flags (tDis tCal : Nat) (d : ADCDev) :
    (ADC.calibrate tDis tCal d).2.active = d.active ∧
    (ADC.calibrate tDis tCal d).2.sampling = d.sampling := by
  simp only [ADC.calibrate]
  repeat' split
  all_goals exact ⟨rfl, rfl⟩

/-- C2 (amended). Whenever ADC::configure fails with a timeout or a resource
acquisition failure it returns false and the lifecycle flags are unchanged
(in particular the device never becomes Active), but registers already written
before the failing step are not rolled back. -/
theorem C2_configure_failure_flags (tDis tCal : Nat) (rccOk : Bool) (tHsi : Nat)
    (single : Bool) (d : ADCDev) (rcc : RccSt)
    (hf : (ADC.configure tDis tCal rccOk tHsi single d rcc).1 = false) :
    (ADC.configure tDis tCal rccOk tHsi single d rcc).2.1.active = d.active ∧
    (ADC.configure tDis tCal rccOk tHsi single d rcc).2.1.sampling = d.sampling := by
  simp only [ADC.configure] at hf ⊢
  by_cases ha : d.active = true
  · rw [if_pos ha] at hf
    exact absurd hf (by simp)
  · rw [if_neg ha] at hf ⊢
    generalize hgen : (if d.calibrated = true then (true, d)
      else ADC.calibrate tDis tCal d) = c at hf ⊢
    obtain ⟨b1, d1⟩ := c
    have hpres : d1.active = d.active ∧ d1.sampling = d.sampling := by
      by_cases hcal : d.calibrated = true
      · rw [if_pos hcal] at hgen
        cases hgen
        exact ⟨rfl, rfl⟩
      · rw [if_neg hcal] at hgen
        have hp := calibrate_preserves_flags tDis tCal d
        rw [hgen] at hp
        exact hp
    cases b1 with
    | false => simpa using hpres
    | true =>
      dsimp only at hf ⊢
      by_cases hr : rccOk = true
      · rw [if_pos hr] at hf ⊢
        by_cases hb : ((rcc.cr2 ||| RCC_CR2_HSI14ON) &&& RCC_CR2_HSI14RDY != 0) = true
        · rw [if_pos hb] at hf ⊢
          by_cases hw : handshake 0 400 = true
          · rw [if_pos hw] at hf
            exact absurd hf (by simp)
          · rw [if_neg hw] at hf ⊢
            simpa using hpres
        · rw [if_neg hb] at hf ⊢
          by_cases hw : handshake tHsi 400 = true
          · rw [if_pos hw] at hf
            exact absurd hf (by simp)
          · rw [if_neg hw] at hf ⊢
            simpa using hpres
      · rw [if_neg hr] at hf ⊢
        simpa using hpres

/-- C2 (counterexample). A concrete run in which the HSI14 ready wait times
out (ready at tick 401, bound 400): configure returns false, yet the CKMODE
field of CFGR2 has been cleared and HSI14ON has been set in RCC CR2 — the
device and clock registers are not left unchanged, refuting the claim that a
failing configure never partially commits any write. -/
theorem C2_configure_partial_commit :
    (ADC.configure 0 0 true 401 true
      ⟨⟨0, 0, 0, 0, ADC_CFGR2_CKMODE, 0, 0, 0⟩, false, true, false,
        ⟨false, false, false, false, false, false⟩⟩ ⟨0⟩).1 = false ∧
    (ADC.configure 0 0 true 401 true
      ⟨⟨0, 0, 0, 0, ADC_CFGR2_CKMODE, 0, 0, 0⟩, false, true, false,
        ⟨false, false, false, false, false, false⟩⟩ ⟨0⟩).2.1.regs.cfgr2 ≠ ADC_CFGR2_CKMODE ∧
    (ADC.configure 0 0 true 401 true
      ⟨⟨0, 0, 0, 0, ADC_CFGR2_CKMODE, 0, 0, 0⟩, false, true, false,
        ⟨false, false, false, false, false, false⟩⟩ ⟨0⟩).2.2.cr2 ≠ 0 := by
  refine ⟨by decide, by decide, by decide⟩

/-- C2 (witness). The failure-path theorem applied at the concrete timed-out
run above. -/
theorem C2_configure_failure_flags_witness :
    (ADC.configure 0 0 true 401 true
      ⟨⟨0, 0, 0, 0, ADC_CFGR2_CKMODE, 0, 0, 0⟩, false, true, false,
        ⟨false, false, false, false, false, false⟩⟩ ⟨0⟩).2.1.active = false ∧
    (ADC.configure 0 0 true 401 true
      ⟨⟨0, 0, 0, 0, ADC_CFGR2_CKMODE, 0, 0, 0⟩, false, true, false,
        ⟨false, false, false, false, false, false⟩⟩ ⟨0⟩).2.1.sampling = false :=
  C2_configure_failure_flags 0 0 true 401 true
    ⟨⟨0, 0, 0, 0, ADC_CFGR2_CKMODE, 0, 0, 0⟩, false, true, false,
      ⟨false, false, false, false, false, false⟩⟩ ⟨0⟩ (by decide)

/-- C3 (amended). ADC::channel rejects pin indices above the channel count
(pin > 18) before any mutation, but the sample-time check (time > 7) is
performed only after the pin was switched to analogue mode and its CHSELR bit
was set: on a time violation the call returns false with no SMPR write, yet
the CHSELR write and the pin-mode change have already happened. -/
theorem C3_channel_validation (port pin time : Nat) (d : ADCDev)
    (g : List (Nat × Nat)) (hs : d.sampling = false) :
    (18 < pin → ADC.channel port pin time d g = (false, d, g)) ∧
    (pin ≤ 18 → 7 < time →
      (ADC.channel port pin time d g).1 = false ∧
      (ADC.channel port pin time d g).2.1.regs.smpr = d.regs.smpr ∧
      (ADC.channel port pin time d g).2.1.regs.chselr = d.regs.chselr ||| (1 <<< pin) ∧
      (ADC.channel port pin time d g).2.2 = Gpio.set_analog port pin g) := by
  constructor
  · intro hp
    simp [ADC.channel, hs, hp, Nat.not_le.mpr hp]
  · intro hp ht
    have hp2 : ¬ 18 < pin := Nat.not_lt.mpr hp
    simp [ADC.channel, hs, hp2, ht]

/-- C3 (counterexample). The concrete scenario channel(pin = 0, time = 8) on a
non-sampling device with CHSELR = 0: the call returns false, yet CHSELR was
written (bit 0 set) and the pin was switched to analogue mode — refuting the
claim that a violating call performs no register mutation and no pin-mode
change. -/
theorem C3_channel_time_mutates :
    (ADC.channel 0 0 8
      ⟨⟨0, 0, 0, 0, 0, 0, 0, 0⟩, true, true, false,
        ⟨false, false, false, false, false, false⟩⟩ []).1 = false ∧
    (ADC.channel 0 0 8
      ⟨⟨0, 0, 0, 0, 0, 0, 0, 0⟩, true, true, false,
        ⟨false, false, false, false, false, false⟩⟩ []).2.1.regs.chselr = 1 ∧
    (ADC.channel 0 0 8
      ⟨⟨0, 0, 0, 0, 0, 0, 0, 0⟩, true, true, false,
        ⟨false, false, false, false, false, false⟩⟩ []).2.2 = [(0, 0)] := by
  refine ⟨by decide, by decide, by decide⟩

/-- C3 (witness). The amended theorem applied at the concrete violating
sample-time input and at the concrete out-of-range pin input. -/
theorem C3_channel_validation_witness :
    (ADC.channel 0 19 3
      ⟨⟨0, 0, 0, 0, 0, 0, 0, 0⟩, true, true, false,
        ⟨false, false, false, false, false, false⟩⟩ []) =
      (false, ⟨⟨0, 0, 0, 0, 0, 0, 0, 0⟩, true, true, false,
        ⟨false, false, false, false, false, false⟩⟩, []) ∧
    (ADC.channel 0 0 8
      ⟨⟨0, 0, 0, 0, 0, 0, 0, 0⟩, true, true, false,
        ⟨false, false, false, false, false, false⟩⟩ []).2.1.regs.smpr = 0 :=
  ⟨(C3_channel_validation 0 19 3 _ [] rfl).1 (by decide),
    by
      have h := (C3_channel_validation 0 0 8
        ⟨⟨0, 0, 0, 0, 0, 0, 0, 0⟩, true, true, false,
          ⟨false, false, false, false, false, false⟩⟩ [] rfl).2
        (by decide) (by decide)
      exact h.2.1⟩

/-- C4 (code bug). The interrupt routine is meant to dispatch on the
individual status bits in priority order, but every condition is written
ISR & MASK == MASK, which C parses as ISR & (MASK == MASK) = ISR & 1, so
every branch tests only bit 0 (the ready bit).  At the failing input
ISR = ADC_ISR_AWD1 (only the watchdog bit set) no callback fires and no bit is
cleared, although the claim (and the comments of the source) require the
watchdog callback to fire; and at ISR = ADC_ISR_ADRDY (only the ready bit set)
the watchdog callback fires instead of the ready callback, and the
read-modify-write of the w1c register clears the whole ISR. -/
theorem C4_priority_dispatch_broken :
    ADC1_IRQHandler ADC_ISR_AWD1 = (none, ADC_ISR_AWD1) ∧
    ADC1_IRQHandler ADC_ISR_ADRDY = (some ADCEvent.watchdog, 0) := by
  refine ⟨by decide, by decide⟩

/-- C5 (code bug). ADC::enableInterrupt walks the callback set in an else-if
chain, so with both the watchdog and the end-of-conversion callbacks
registered (and IER initially 0) only the watchdog enable bit AWDIE is set and
the EOCIE enable bit stays clear, although the claim (and the comment of the
source, which speaks of enabling the interrupts for which a callback exists)
requires one enable bit per present callback. -/
theorem C5_enable_chain_single_bit :
    ((ADC.enableInterrupt ⟨true, false, false, true, false, false⟩
      ⟨⟨0, 0, 0, 0, 0, 0, 0, 0⟩, true, true, false,
        ⟨false, false, false, false, false, false⟩⟩).2.regs.ier = ADC_IER_AWDIE) ∧
    ((ADC.enableInterrupt ⟨true, false, false, true, false, false⟩
      ⟨⟨0, 0, 0, 0, 0, 0, 0, 0⟩, true, true, false,
        ⟨false, false, false, false, false, false⟩⟩).2.regs.ier &&& ADC_IER_EOCIE = 0) ∧
    ((ADC.enableInterrupt ⟨true, false, false, true, false, false⟩
      ⟨⟨0, 0, 0, 0, 0, 0, 0, 0⟩, true, true, false,
        ⟨false, false, false, false, false, false⟩⟩).1 = true) := by
  refine ⟨by decide, by decide, by decide⟩

/-- C6 (confirmed). For every Active and Sampling device, ADC::getValue waits
(bounded by 400) for the end-of-conversion flag: on timeout it returns false,
the out parameter is never written and the Sampling flag (indeed the entire
device state) is unchanged; on success it returns true, the out parameter
holds the single read of the data register, the Sampling flag is cleared and
the device stays Active. -/
theorem C6_getValue_spec (tEoc : Nat) (d : ADCDev) (ha : d.active = true)
    (hs : d.sampling = true) :
    (handshake (if d.regs.isr &&& ADC_ISR_EOC != 0 then 0 else tEoc) 400 = false →
      ADC.getValue tEoc d = (false, d, none)) ∧
    (handshake (if d.regs.isr &&& ADC_ISR_EOC != 0 then 0 else tEoc) 400 = true →
      (ADC.getValue tEoc d).1 = true ∧
      (ADC.getValue tEoc d).2.2 = some d.regs.dr ∧
      (ADC.getValue tEoc d).2.1.sampling = false ∧
      (ADC.getValue tEoc d).2.1.active = true) := by
  constructor
  · intro h
    have h2 : handshake (if d.regs.isr &&& ADC_ISR_EOC = 0 then tEoc else 0) 400 = false := by
      simpa using h
    simp [ADC.getValue, ha, hs, h2]
  · intro h
    have h2 : handshake (if d.regs.isr &&& ADC_ISR_EOC = 0 then tEoc else 0) 400 = true := by
      simpa using h
    simp [ADC.getValue, ha, hs, h2]

/-- C6 (witness). The theorem applied at a concrete Active and Sampling device
whose conversion completes immediately, with data register value 7. -/
theorem C6_getValue_spec_witness :
    (ADC.getValue 0 ⟨⟨0, 0, 0, 0, 0, 0, 0, 7⟩, true, true, true,
      ⟨false, false, false, false, false, false⟩⟩).1 = true ∧
    (ADC.getValue 0 ⟨⟨0, 0, 0, 0, 0, 0, 0, 7⟩, true, true, true,
      ⟨false, false, false, false, false, false⟩⟩).2.2 = some 7 ∧
    (ADC.getValue 0 ⟨⟨0, 0, 0, 0, 0, 0, 0, 7⟩, true, true, true,
      ⟨false, false, false, false, false, false⟩⟩).2.1.sampling = false :=
  have h := (C6_getValue_spec 0 ⟨⟨0, 0, 0, 0, 0, 0, 0, 7⟩, true, true, true,
      ⟨false, false, false, false, false, false⟩⟩ rfl rfl).2 (by decide)
  ⟨h.1, h.2.1.trans (by decide), h.2.2.1⟩

/-- C7 (confirmed). For every Active and Calibrated device, when ADC::start
times out waiting for the ready flag (the flag would only rise after the
400-tick bound) it returns false without clearing the enable bit it set: the
ADEN bit of CR is set in the resulting state, leaving the hardware partially
enabled. -/
theorem C7_start_timeout_keeps_enable (tRdy : Nat) (d : ADCDev)
    (ha : d.active = true) (hc : d.calibrated = true)
    (ht : handshake tRdy 400 = false) :
    (ADC.start tRdy d).1 = false ∧
    (ADC.start tRdy d).2.regs.cr &&& ADC_CR_ADEN = ADC_CR_ADEN := by
  simp only [ADC.start, ha, hc, Bool.not_true, Bool.false_eq_true, if_false]
  by_cases hstale : (d.regs.isr &&& ADC_ISR_ADRDY != 0) = true
  · rw [if_pos hstale]
    have hz : w1c d.regs.isr (d.regs.isr ||| ADC_ISR_ADRDY) &&& ADC_ISR_ADRDY = 0 := by
      exact clearBits_and_eq_zero _ _ _ (and_or_self_left _ _)
    have hcond : (w1c d.regs.isr (d.regs.isr ||| ADC_ISR_ADRDY) &&& ADC_ISR_ADRDY != 0) = false := by
      simp [hz]
    rw [hcond]
    simp only [Bool.false_eq_true, if_false, ht]
    exact ⟨by simp, or_and_self_right _ _⟩
  · rw [if_neg hstale]
    have hcond : (d.regs.isr &&& ADC_ISR_ADRDY != 0) = false := by
      simpa using hstale
    rw [hcond]
    simp only [Bool.false_eq_true, if_false, ht]
    exact ⟨by simp, or_and_self_right _ _⟩

/-- C7 (witness). The theorem applied at a concrete Active and Calibrated
device whose ready flag would only rise at tick 401 (past the 400 bound). -/
theorem C7_start_timeout_keeps_enable_witness :
    (ADC.start 401 ⟨⟨0, 0, 0, 0, 0, 0, 0, 0⟩, true, true, false,
      ⟨false, false, false, false, false, false⟩⟩).1 = false ∧
    (ADC.start 401 ⟨⟨0, 0, 0, 0, 0, 0, 0, 0⟩, true, true, false,
      ⟨false, false, false, false, false, false⟩⟩).2.regs.cr &&& ADC_CR_ADEN = ADC_CR_ADEN :=
  C7_start_timeout_keeps_enable 401 ⟨⟨0, 0, 0, 0, 0, 0, 0, 0⟩, true, true, false,
    ⟨false, false, false, false, false, false⟩⟩ rfl rfl (by decide)

/-! ## ADS1115 I2C register-cache driver (ADS1115.cpp)

Modelled from the spec where the repository header ADS1115.h is not under
src/: the register addresses, field high-bit positions and field lengths
follow the register wire contract of the spec (the vendor datasheet map,
bit-for-bit), and the default argument of getConversion (triggerAndPoll =
true) together with the retry bound I2CDEV_DEFAULT_READ_TIMEOUT follow the
upstream I2Clib interface the source file is based on. -/

def ADS1115_RA_CONVERSION : Nat := 0
def ADS1115_RA_CONFIG : Nat := 1
def ADS1115_RA_LO_THRESH : Nat := 2
def ADS1115_RA_HI_THRESH : Nat := 3
def ADS1115_CFG_OS_BIT : Nat := 15
def ADS1115_CFG_MUX_BIT : Nat := 14
def ADS1115_CFG_MUX_LENGTH : Nat := 3
def ADS1115_CFG_PGA_BIT : Nat := 11
def ADS1115_CFG_PGA_LENGTH : Nat := 3
def ADS1115_CFG_MODE_BIT : Nat := 8
def ADS1115_CFG_DR_BIT : Nat := 7
def ADS1115_CFG_DR_LENGTH : Nat := 3
def ADS1115_MODE_CONTINUOUS : Bool := false
def ADS1115_MODE_SINGLESHOT : Bool := true
def I2CDEV_DEFAULT_READ_TIMEOUT : Nat := 1000

/-- The physical ADS1115 slave: its register pointer and its four 16-bit
registers, behaving as plain storage for the wire protocol. -/
structure ADSDevice where
  regPtr : Nat
  conversion : Nat
  config : Nat
  loThresh : Nat
  hiThresh : Nat
deriving DecidableEq

/-- Value of the currently addressed slave register. -/
def ADSDevice.read (dev : ADSDevice) : Nat :=
  if dev.regPtr = ADS1115_RA_CONVERSION then dev.conversion
  else if dev.regPtr = ADS1115_RA_CONFIG then dev.config
  else if dev.regPtr = ADS1115_RA_LO_THRESH then dev.loThresh
  else dev.hiThresh

/-- Store a 16-bit value into the currently addressed slave register. -/
def ADSDevice.write (dev : ADSDevice) (v : Nat) : ADSDevice :=
  if dev.regPtr = ADS1115_RA_CONVERSION then { dev with conversion := v }
  else if dev.regPtr = ADS1115_RA_CONFIG then { dev with config := v }
  else if dev.regPtr = ADS1115_RA_LO_THRESH then { dev with loThresh := v }
  else { dev with hiThresh := v }

/-- Driver object state: the cached register pointer, the 3-byte transfer
buffer (each cell a uint8), the cached field values, and the attached slave.
Every internal call site passes the member buffer itself for data, so the
aliasing of send(buffer) is resolved by acting on the buffer directly. -/
structure ADS1115St where
  reg : Nat
  b0 : Nat
  b1 : Nat
  b2 : Nat
  pgaMode : Nat
  muxMode : Nat
  devMode : Bool
  dev : ADSDevice
deriving DecidableEq

/-- ADS1115::setRegister: buffer[0] := reg, then a 1-byte pointer write whose
physical success is the oracle io; its boolean result reports the transfer. -/
def ADS1115.setRegister (io : Bool) (s : ADS1115St) : Bool × ADS1115St :=
  let s1 := { s with b0 := s.reg }
  if io then (true, { s1 with dev := { s1.dev with regPtr := s1.reg } })
  else (false, s1)

/-- ADS1115::receive: a pointer write (result discarded) followed by a 2-byte
read into the buffer; returns true unconditionally, discarding the physical
transfer result io. -/
def ADS1115.receive (io : Bool) (s : ADS1115St) : Bool × ADS1115St :=
  let s1 := (ADS1115.setRegister io s).2
  if io then
    let v := s1.dev.read
    (true, { s1 with b0 := (v >>> 8) &&& 255, b1 := v &&& 255 })
  else (true, s1)

/-- ADS1115::send called with the member buffer (data aliases buffer): the
shuffle data[2] = buffer[1]; data[1] = buffer[0]; data[0] = reg, then a 3-byte
write (pointer plus 16-bit value); returns true unconditionally, discarding
the physical transfer result io. -/
def ADS1115.send (io : Bool) (s : ADS1115St) : Bool × ADS1115St :=
  let s1 := { s with b2 := s.b1, b1 := s.b0, b0 := s.reg }
  if io then
    let dev1 := { s1.dev with regPtr := s1.b0 }
    (true, { s1 with dev := dev1.write (((s1.b1 &&& 255) <<< 8) ||| (s1.b2 &&& 255)) })
  else (true, s1)

/-- ADS1115::setMode: read-modify-write of the MODE bit of the config
register; the cache devMode is updated only under the (always-true) send
result. -/
def ADS1115.setMode (io : Bool) (mode : Bool) (s : ADS1115St) : ADS1115St :=
  let s1 := { s with reg := ADS1115_RA_CONFIG }
  let s2 := (ADS1115.receive io s1).2
  let s3 := { s2 with b0 := clearBits s2.b0 (1 <<< (ADS1115_CFG_MODE_BIT - 8)) }
  let s4 := { s3 with
    b0 := (s3.b0 ||| ((if mode then 1 else 0) <<< (ADS1115_CFG_MODE_BIT - 8))) &&& 255 }
  let r := ADS1115.send io s4
  if r.1 then { r.2 with devMode := mode } else r.2

/-- ADS1115::triggerConversion: read-modify-write setting the OS bit. -/
def ADS1115.triggerConversion (io : Bool) (s : ADS1115St) : ADS1115St :=
  let s1 := { s with reg := ADS1115_RA_CONFIG }
  let s2 := (ADS1115.receive io s1).2
  let s3 := { s2 with b0 := (s2.b0 ||| (1 <<< (ADS1115_CFG_OS_BIT - 8))) &&& 255 }
  (ADS1115.send io s3).2

/-- ADS1115::isConversionReady: reads the config register and extracts the OS
bit; the receive failure guard is dead because receive always returns true. -/
def ADS1115.isConversionReady (io : Bool) (s : ADS1115St) : Bool × ADS1115St :=
  let s1 := { s with reg := ADS1115_RA_CONFIG }
  let r := ADS1115.receive io s1
  if !r.1 then (false, r.2)
  else
    let s2 := r.2
    let m := s2.b0 &&& (1 <<< (ADS1115_CFG_OS_BIT - 8))
    let s3 := { s2 with b0 := m >>> (ADS1115_CFG_OS_BIT - 8) }
    (s3.b0 != 0, s3)

/-- ADS1115::pollConversion: retry isConversionReady up to the given attempt
count (a retry count, not a wall-clock bound). -/
def ADS1115.pollConversion (io : Bool) : Nat → ADS1115St → Bool × ADS1115St
  | 0, s => (false, s)
  | n + 1, s =>
    let r := ADS1115.isConversionReady io s
    if r.1 then (true, r.2) else ADS1115.pollConversion io n r.2

/-- ADS1115::getConversion: with triggerAndPoll true and the device cached as
single-shot, trigger a conversion and poll; then read the conversion
register and return its 16-bit value (sign interpretation aside). -/
def ADS1115.getConversion (io : Bool) (triggerAndPoll : Bool) (s : ADS1115St) :
    ADS1115St × Nat :=
  let sA := if triggerAndPoll && (s.devMode == ADS1115_MODE_SINGLESHOT) then
      (ADS1115.pollConversion io I2CDEV_DEFAULT_READ_TIMEOUT
        (ADS1115.triggerConversion io s)).2
    else s
  let sB := { sA with reg := ADS1115_RA_CONVERSION }
  let sC := (ADS1115.receive io sB).2
  (sC, (sC.b0 <<< 8) ||| sC.b1)

/-- ADS1115::setGain: read config, clear the PGA field, OR in the new gain
code, write back; under the (always-true) send result update the pgaMode
cache and, if the cache says continuous mode, force a single-shot stop/start
around a dummy conversion. -/
def ADS1115.setGain (io : Bool) (gain : Nat) (s : ADS1115St) : ADS1115St :=
  let s1 := { s with reg := ADS1115_RA_CONFIG }
  let s2 := (ADS1115.receive io s1).2
  let s3 := { s2 with
    b0 := clearBits s2.b0 (7 <<< (ADS1115_CFG_PGA_BIT - ADS1115_CFG_PGA_LENGTH + 1 - 8)) }
  let s4 := { s3 with
    b0 := (s3.b0 ||| (gain <<< (ADS1115_CFG_PGA_BIT - ADS1115_CFG_PGA_LENGTH + 1 - 8))) &&& 255 }
  let r := ADS1115.send io s4
  if r.1 then
    let s5 := { r.2 with pgaMode := gain }
    if s5.devMode = ADS1115_MODE_CONTINUOUS then
      let s6 := ADS1115.setMode io ADS1115_MODE_SINGLESHOT s5
      let s7 := (ADS1115.getConversion io true s6).1
      ADS1115.setMode io ADS1115_MODE_CONTINUOUS s7
    else s5
  else r.2

/-- ADS1115::getGain: read config, mask and shift out the PGA field, cache
and return it. -/
def ADS1115.getGain (io : Bool) (s : ADS1115St) : Nat × ADS1115St :=
  let s1 := { s with reg := ADS1115_RA_CONFIG }
  let s2 := (ADS1115.receive io s1).2
  let s3 := { s2 with
    b0 := s2.b0 &&& (7 <<< (ADS1115_CFG_PGA_BIT - ADS1115_CFG_PGA_LENGTH + 1 - 8)) }
  let s4 := { s3 with
    b0 := s3.b0 >>> (ADS1115_CFG_PGA_BIT - ADS1115_CFG_PGA_LENGTH + 1 - 8) }
  (s4.b0, { s4 with pgaMode := s4.b0 })

/-- ADS1115::setMultiplexer: same read-modify-write shape as setGain, on the
MUX field, updating the muxMode cache under the (always-true) send result. -/
def ADS1115.setMultiplexer (io : Bool) (mux : Nat) (s : ADS1115St) : ADS1115St :=
  let s1 := { s with reg := ADS1115_RA_CONFIG }
  let s2 := (ADS1115.receive io s1).2
  let s3 := { s2 with
    b0 := clearBits s2.b0 (7 <<< (ADS1115_CFG_MUX_BIT - ADS1115_CFG_MUX_LENGTH + 1 - 8)) }
  let s4 := { s3 with
    b0 := (s3.b0 ||| (mux <<< (ADS1115_CFG_MUX_BIT - ADS1115_CFG_MUX_LENGTH + 1 - 8))) &&& 255 }
  let r := ADS1115.send io s4
  if r.1 then
    let s5 := { r.2 with muxMode := mux }
    if s5.devMode = ADS1115_MODE_CONTINUOUS then
      let s6 := ADS1115.setMode io ADS1115_MODE_SINGLESHOT s5
      let s7 := (ADS1115.getConversion io true s6).1
      ADS1115.setMode io ADS1115_MODE_CONTINUOUS s7
    else s5
  else r.2

theorem send_fst (io : Bool) (s : ADS1115St) : (ADS1115.send io s).1 = true := by
  cases io <;> simp [ADS1115.send]

theorem receive_fst (io : Bool) (s : ADS1115St) : (ADS1115.receive io s).1 = true := by
  cases io <;> simp [ADS1115.receive, ADS1115.setRegister]

theorem setRegister_pga (io : Bool) (s : ADS1115St) :
    (ADS1115.setRegister io s).2.pgaMode = s.pgaMode := by
  cases io <;> simp [ADS1115.setRegister]

theorem receive_pga (io : Bool) (s : ADS1115St) :
    (ADS1115.receive io s).2.pgaMode = s.pgaMode := by
  cases io <;> simp [ADS1115.receive, ADS1115.setRegister]

theorem send_pga (io : Bool) (s : ADS1115St) :
    (ADS1115.send io s).2.pgaMode = s.pgaMode := by
  cases io <;> simp [ADS1115.send]

theorem setMode_pga (io mode : Bool) (s : ADS1115St) :
    (ADS1115.setMode io mode s).pgaMode = s.pgaMode := by
  simp [ADS1115.setMode, send_fst, send_pga, receive_pga]

theorem triggerConversion_pga (io : Bool) (s : ADS1115St) :
    (ADS1115.triggerConversion io s).pgaMode = s.pgaMode := by
  simp [ADS1115.triggerConversion, send_pga, receive_pga]

theorem isConversionReady_pga (io : Bool) (s : ADS1115St) :
    (ADS1115.isConversionReady io s).2.pgaMode = s.pgaMode := by
  simp [ADS1115.isConversionReady, receive_fst, receive_pga]

theorem pollConversion_pga (io : Bool) (n : Nat) (s : ADS1115St) :
    (ADS1115.pollConversion io n s).2.pgaMode = s.pgaMode := by
  induction n generalizing s with
  | zero => rfl
  | succ k ih =>
    simp only [ADS1115.pollConversion]
    split
    · exact isConversionReady_pga io s
    · exact (ih _).trans (isConversionReady_pga io s)

theorem getConversion_pga (io tp : Bool) (s : ADS1115St) :
    (ADS1115.getConversion io tp s).1.pgaMode = s.pgaMode := by
  simp only [ADS1115.getConversion]
  split
  · rw [receive_pga]
    exact (pollConversion_pga io _ _).trans (triggerConversion_pga io s)
  · rw [receive_pga]

theorem setRegister_mux (io : Bool) (s : ADS1115St) :
    (ADS1115.setRegister io s).2.muxMode = s.muxMode := by
  cases io <;> simp [ADS1115.setRegister]

theorem receive_mux (io : Bool) (s : ADS1115St) :
    (ADS1115.receive io s).2.muxMode = s.muxMode := by
  cases io <;> simp [ADS1115.receive, ADS1115.setRegister]

theorem send_mux (io : Bool) (s : ADS1115St) :
    (ADS1115.send io s).2.muxMode = s.muxMode := by
  cases io <;> simp [ADS1115.send]

theorem setMode_mux (io mode : Bool) (s : ADS1115St) :
    (ADS1115.setMode io mode s).muxMode = s.muxMode := by
  simp [ADS1115.setMode, send_fst, send_mux, receive_mux]

theorem triggerConversion_mux (io : Bool) (s : ADS1115St) :
    (ADS1115.triggerConversion io s).muxMode = s.muxMode := by
  simp [ADS1115.triggerConversion, send_mux, receive_mux]

theorem isConversionReady_mux (io : Bool) (s : ADS1115St) :
    (ADS1115.isConversionReady io s).2.muxMode = s.muxMode := by
  simp [ADS1115.isConversionReady, receive_fst, receive_mux]

theorem pollConversion_mux (io : Bool) (n : Nat) (s : ADS1115St) :
    (ADS1115.pollConversion io n s).2.muxMode = s.muxMode := by
  induction n generalizing s with
  | zero => rfl
  | succ k ih =>
    simp only [ADS1115.pollConversion]
    split
    · exact isConversionReady_mux io s
    · exact (ih _).trans (isConversionReady_mux io s)

theorem getConversion_mux (io tp : Bool) (s : ADS1115St) :
    (ADS1115.getConversion io tp s).1.muxMode = s.muxMode := by
  simp only [ADS1115.getConversion]
  split
  · rw [receive_mux]
    exact (pollConversion_mux io _ _).trans (triggerConversion_mux io s)
  · rw [receive_mux]

/-- C10 (confirmed). ADS1115::send and ADS1115::receive return true for every
input and for either outcome io of the underlying physical I2C transfer, so
the success-guarded cache updates of the setters always execute (setGain
always caches the new gain, setMultiplexer always caches the new mux, even
when every transfer of the call failed), and a failed physical transaction is
never reported to the caller. -/
theorem C10_transfer_result_discarded (io : Bool) (s : ADS1115St) (g m : Nat) :
    (ADS1115.send io s).1 = true ∧
    (ADS1115.receive io s).1 = true ∧
    (ADS1115.setGain io g s).pgaMode = g ∧
    (ADS1115.setMultiplexer io m s).muxMode = m := by
  refine ⟨send_fst io s, receive_fst io s, ?_, ?_⟩
  · simp only [ADS1115.setGain, send_fst, if_true]
    split
    · rw [setMode_pga, getConversion_pga, setMode_pga]
    · rfl
  · simp only [ADS1115.setMultiplexer, send_fst, if_true]
    split
    · rw [setMode_mux, getConversion_mux, setMode_mux]
    · rfl

theorem and255_lt (x : Nat) : x &&& 255 < 256 :=
  Nat.lt_succ_of_le Nat.and_le_right

theorem mask_window (y k m : Nat) (h : k + m ≤ 8) :
    ((y &&& 255) >>> k) &&& (2 ^ m - 1) = (y >>> k) &&& (2 ^ m - 1) := by
  apply Nat.eq_of_testBit_eq
  intro i
  simp only [Nat.testBit_and, Nat.testBit_shiftRight, Nat.testBit_two_pow_sub_one]
  by_cases him : i < m
  · have h255 : (255 : Nat).testBit (k + i) = true := by
      rw [show (255 : Nat) = 2 ^ 8 - 1 from rfl, Nat.testBit_two_pow_sub_one]
      simp only [decide_eq_true_eq]
      omega
    simp [h255, him]
  · simp [him]

theorem window4_7 (y : Nat) : ((y &&& 255) >>> 4) &&& 7 = (y >>> 4) &&& 7 := by
  simpa using mask_window y 4 3 (by omega)

theorem window5_7 (y : Nat) : ((y &&& 255) >>> 5) &&& 7 = (y >>> 5) &&& 7 := by
  simpa using mask_window y 5 3 (by omega)

theorem window0_1 (y : Nat) : (y &&& 255) &&& 1 = y &&& 1 := by
  have h := mask_window y 0 1 (by omega)
  simpa using h

theorem hiLo_shiftRight8 (H L : Nat) (hL : L < 256) :
    ((H <<< 8) ||| L) >>> 8 = H := by
  apply Nat.eq_of_testBit_eq
  intro i
  simp only [Nat.testBit_shiftRight, Nat.testBit_or, Nat.testBit_shiftLeft]
  have hL8 : L.testBit (8 + i) = false := by
    apply Nat.testBit_lt_two_pow
    calc L < 256 := hL
      _ = 2 ^ 8 := rfl
      _ ≤ 2 ^ (8 + i) := Nat.pow_le_pow_right (by omega) (by omega)
  have h8 : (8 + i ≥ 8) = True := by simp
  have hsub : 8 + i - 8 = i := by omega
  simp [hL8, h8, hsub]

theorem pollConversion_ready (io : Bool) (n : Nat) (s : ADS1115St)
    (h : (ADS1115.isConversionReady io s).1 = true) (hn : 0 < n) :
    ADS1115.pollConversion io n s = (true, (ADS1115.isConversionReady io s).2) := by
  cases n with
  | zero => omega
  | succ k => simp [ADS1115.pollConversion, h]


theorem and255_and255 (x : Nat) : x &&& 255 &&& 255 = x &&& 255 := by
  rw [Nat.and_assoc]
  rfl

theorem hiLo_shiftRight8m (H B : Nat) : ((H <<< 8) ||| (B &&& 255)) >>> 8 = H :=
  hiLo_shiftRight8 _ _ (and255_lt _)

theorem and255_mod2 (y : Nat) : (y &&& 255) % 2 = y % 2 := by
  rw [← Nat.and_one_is_mod, ← Nat.and_one_is_mod, Nat.and_assoc]
  rfl

theorem hiLo_and255 (H B : Nat) : ((H <<< 8) ||| B) &&& 255 = B &&& 255 := by
  apply Nat.eq_of_testBit_eq
  intro i
  simp only [Nat.testBit_and, Nat.testBit_or, Nat.testBit_shiftLeft]
  by_cases hi : i < 8
  · have : (i ≥ 8) = False := by simp; omega
    simp [this]
  · have h255 : (255 : Nat).testBit i = false := by
      rw [show (255 : Nat) = 2 ^ 8 - 1 from rfl, Nat.testBit_two_pow_sub_one]
      simp; omega
    simp [h255]

theorem hiLo_mux (H B : Nat) :
    (((H <<< 8) ||| (B &&& 255)) >>> 12) &&& 7 = (H >>> 4) &&& 7 := by
  rw [show (12 : Nat) = 8 + 4 from rfl, Nat.shiftRight_add, hiLo_shiftRight8m]

theorem hiLo_mode (H B : Nat) :
    (((H <<< 8) ||| (B &&& 255)) >>> 8) &&& 1 = H &&& 1 := by
  rw [hiLo_shiftRight8m]

theorem hiLo_rate (H B : Nat) :
    (((H <<< 8) ||| (B &&& 255)) >>> 5) &&& 7 = ((B &&& 255) >>> 5) &&& 7 := by
  apply Nat.eq_of_testBit_eq
  intro i
  simp only [Nat.testBit_and, Nat.testBit_shiftRight, Nat.testBit_or, Nat.testBit_shiftLeft]
  by_cases hi : i < 3
  · have : (5 + i ≥ 8) = False := by simp; omega
    simp [this]
  · have h7 : (7 : Nat).testBit i = false := by
      rw [show (7 : Nat) = 2 ^ 3 - 1 from rfl, Nat.testBit_two_pow_sub_one]
      simp; omega
    simp [h7]

theorem setMode_devMode (io m : Bool) (s : ADS1115St) :
    (ADS1115.setMode io m s).devMode = m := by
  simp [ADS1115.setMode, send_fst]

theorem setMode_dev_config (m : Bool) (s : ADS1115St) :
    (ADS1115.setMode true m s).dev.config =
      ((clearBits (s.dev.config >>> 8 &&& 255) 1 |||
        (if m then 1 else 0)) &&& 255) <<< 8 ||| s.dev.config &&& 255 := by
  simp [ADS1115.setMode, ADS1115.receive, ADS1115.setRegister, ADS1115.send,
    ADSDevice.read, ADSDevice.write, ADS1115_RA_CONFIG, ADS1115_RA_CONVERSION,
    ADS1115_RA_LO_THRESH, ADS1115_RA_HI_THRESH, ADS1115_CFG_MODE_BIT, and255_and255]

theorem receive_devconfig (io : Bool) (s : ADS1115St) :
    (ADS1115.receive io s).2.dev.config = s.dev.config := by
  cases io <;> simp [ADS1115.receive, ADS1115.setRegister]

theorem isConversionReady_devconfig (io : Bool) (s : ADS1115St) :
    (ADS1115.isConversionReady io s).2.dev.config = s.dev.config := by
  simp [ADS1115.isConversionReady, receive_fst, receive_devconfig]

theorem pollConversion_devconfig (io : Bool) (n : Nat) (s : ADS1115St) :
    (ADS1115.pollConversion io n s).2.dev.config = s.dev.config := by
  induction n generalizing s with
  | zero => rfl
  | succ k ih =>
    simp only [ADS1115.pollConversion]
    split
    · exact isConversionReady_devconfig io s
    · exact (ih _).trans (isConversionReady_devconfig io s)

theorem triggerConversion_dev_config (s : ADS1115St) :
    (ADS1115.triggerConversion true s).dev.config =
      (((s.dev.config >>> 8 &&& 255) ||| 128) &&& 255) <<< 8 ||| s.dev.config &&& 255 := by
  simp [ADS1115.triggerConversion, ADS1115.receive, ADS1115.setRegister, ADS1115.send,
    ADSDevice.read, ADSDevice.write, ADS1115_RA_CONFIG, ADS1115_RA_CONVERSION,
    ADS1115_RA_LO_THRESH, ADS1115_RA_HI_THRESH, ADS1115_CFG_OS_BIT, and255_and255]

theorem getConversion_config_single (s : ADS1115St) (h : s.devMode = true) :
    (ADS1115.getConversion true true s).1.dev.config =
      (((s.dev.config >>> 8 &&& 255) ||| 128) &&& 255) <<< 8 ||| s.dev.config &&& 255 := by
  simp only [ADS1115.getConversion, h, ADS1115_MODE_SINGLESHOT]
  rw [receive_devconfig]
  simp [pollConversion_devconfig, triggerConversion_dev_config]

/-- C8 (confirmed). For every valid gain code (3-bit, code < 8) and every
driver state whose mode cache agrees with the mode bit of the device config
register (the register-cache invariant of the data model), setGain(code)
followed by getGain() returns code, and the mux field (bits 14..12), the mode
bit (bit 8) and the rate field (bits 7..5) of the mirrored config register are
bit-for-bit unchanged by the setGain call — including through the forced
single-shot stop/start dummy-conversion cycle taken when the device is in
continuous mode. -/
theorem C8_setGain_getGain_roundtrip (g : Nat) (s : ADS1115St) (hg : g < 8)
    (hm : s.devMode = ((s.dev.config >>> 8) &&& 1 != 0)) :
    (ADS1115.getGain true (ADS1115.setGain true g s)).1 = g ∧
    ((ADS1115.setGain true g s).dev.config >>> 12) &&& 7 = (s.dev.config >>> 12) &&& 7 ∧
    ((ADS1115.setGain true g s).dev.config >>> 8) &&& 1 = (s.dev.config >>> 8) &&& 1 ∧
    ((ADS1115.setGain true g s).dev.config >>> 5) &&& 7 = (s.dev.config >>> 5) &&& 7 := by
  cases hdm : s.devMode with
  | true =>
    rw [hdm] at hm
    refine ⟨?_, ?_, ?_, ?_⟩
    · simp [ADS1115.setGain, ADS1115.getGain, ADS1115.receive, ADS1115.setRegister,
        ADS1115.send, ADSDevice.read, ADSDevice.write, ADS1115_RA_CONFIG, ADS1115_RA_CONVERSION,
        ADS1115_RA_LO_THRESH, ADS1115_RA_HI_THRESH, ADS1115_CFG_PGA_BIT, ADS1115_CFG_PGA_LENGTH,
        ADS1115_MODE_CONTINUOUS, ADS1115_MODE_SINGLESHOT, hdm, setMode_dev_config, setMode_devMode,
        getConversion_config_single, and255_and255, hiLo_shiftRight8m, hiLo_and255, hiLo_mux,
        hiLo_mode, hiLo_rate]
      have hb_lt := and255_lt (s.dev.config >>> 8)
      generalize (s.dev.config >>> 8 &&& 255) = hb at hb_lt ⊢
      revert hb_lt; revert hb; revert hg; revert g
      decide
    · simp [ADS1115.setGain, ADS1115.receive, ADS1115.setRegister,
        ADS1115.send, ADSDevice.read, ADSDevice.write, ADS1115_RA_CONFIG, ADS1115_RA_CONVERSION,
        ADS1115_RA_LO_THRESH, ADS1115_RA_HI_THRESH, ADS1115_CFG_PGA_BIT, ADS1115_CFG_PGA_LENGTH,
        ADS1115_MODE_CONTINUOUS, ADS1115_MODE_SINGLESHOT, hdm, setMode_dev_config, setMode_devMode,
        getConversion_config_single, and255_and255, hiLo_shiftRight8m, hiLo_and255, hiLo_mux,
        hiLo_mode, hiLo_rate]
      rw [show (12 : Nat) = 8 + 4 from rfl, Nat.shiftRight_add, ← window4_7 (s.dev.config >>> 8)]
      have hb_lt := and255_lt (s.dev.config >>> 8)
      generalize (s.dev.config >>> 8 &&& 255) = hb at hb_lt ⊢
      revert hb_lt; revert hb; revert hg; revert g
      decide
    · simp [ADS1115.setGain, ADS1115.receive, ADS1115.setRegister,
        ADS1115.send, ADSDevice.read, ADSDevice.write, ADS1115_RA_CONFIG, ADS1115_RA_CONVERSION,
        ADS1115_RA_LO_THRESH, ADS1115_RA_HI_THRESH, ADS1115_CFG_PGA_BIT, ADS1115_CFG_PGA_LENGTH,
        ADS1115_MODE_CONTINUOUS, ADS1115_MODE_SINGLESHOT, hdm, setMode_dev_config, setMode_devMode,
        getConversion_config_single, and255_and255, hiLo_shiftRight8m, hiLo_and255, hiLo_mux,
        hiLo_mode, hiLo_rate]
      rw [← and255_mod2 (s.dev.config >>> 8)]
      have hb_lt := and255_lt (s.dev.config >>> 8)
      generalize (s.dev.config >>> 8 &&& 255) = hb at hb_lt ⊢
      revert hb_lt; revert hb; revert hg; revert g
      decide
    · simp [ADS1115.setGain, ADS1115.receive, ADS1115.setRegister,
        ADS1115.send, ADSDevice.read, ADSDevice.write, ADS1115_RA_CONFIG, ADS1115_RA_CONVERSION,
        ADS1115_RA_LO_THRESH, ADS1115_RA_HI_THRESH, ADS1115_CFG_PGA_BIT, ADS1115_CFG_PGA_LENGTH,
        ADS1115_MODE_CONTINUOUS, ADS1115_MODE_SINGLESHOT, hdm, setMode_dev_config, setMode_devMode,
        getConversion_config_single, and255_and255, hiLo_shiftRight8m, hiLo_and255, hiLo_mux,
        hiLo_mode, hiLo_rate]
      exact window5_7 _
  | false =>
    rw [hdm] at hm
    have hm0 : s.dev.config >>> 8 % 2 = 0 := by
      simpa using hm.symm
    refine ⟨?_, ?_, ?_, ?_⟩
    · simp [ADS1115.setGain, ADS1115.getGain, ADS1115.receive, ADS1115.setRegister,
        ADS1115.send, ADSDevice.read, ADSDevice.write, ADS1115_RA_CONFIG, ADS1115_RA_CONVERSION,
        ADS1115_RA_LO_THRESH, ADS1115_RA_HI_THRESH, ADS1115_CFG_PGA_BIT, ADS1115_CFG_PGA_LENGTH,
        ADS1115_MODE_CONTINUOUS, ADS1115_MODE_SINGLESHOT, hdm, setMode_dev_config, setMode_devMode,
        getConversion_config_single, and255_and255, hiLo_shiftRight8m, hiLo_and255, hiLo_mux,
        hiLo_mode, hiLo_rate]
      have hb_lt := and255_lt (s.dev.config >>> 8)
      generalize (s.dev.config >>> 8 &&& 255) = hb at hb_lt ⊢
      revert hb_lt; revert hb; revert hg; revert g
      decide
    · simp [ADS1115.setGain, ADS1115.receive, ADS1115.setRegister,
        ADS1115.send, ADSDevice.read, ADSDevice.write, ADS1115_RA_CONFIG, ADS1115_RA_CONVERSION,
        ADS1115_RA_LO_THRESH, ADS1115_RA_HI_THRESH, ADS1115_CFG_PGA_BIT, ADS1115_CFG_PGA_LENGTH,
        ADS1115_MODE_CONTINUOUS, ADS1115_MODE_SINGLESHOT, hdm, setMode_dev_config, setMode_devMode,
        getConversion_config_single, and255_and255, hiLo_shiftRight8m, hiLo_and255, hiLo_mux,
        hiLo_mode, hiLo_rate]
      rw [show (12 : Nat) = 8 + 4 from rfl, Nat.shiftRight_add, ← window4_7 (s.dev.config >>> 8)]
      have hb_lt := and255_lt (s.dev.config >>> 8)
      generalize (s.dev.config >>> 8 &&& 255) = hb at hb_lt ⊢
      revert hb_lt; revert hb; revert hg; revert g
      decide
    · simp [ADS1115.setGain, ADS1115.receive, ADS1115.setRegister,
        ADS1115.send, ADSDevice.read, ADSDevice.write, ADS1115_RA_CONFIG, ADS1115_RA_CONVERSION,
        ADS1115_RA_LO_THRESH, ADS1115_RA_HI_THRESH, ADS1115_CFG_PGA_BIT, ADS1115_CFG_PGA_LENGTH,
        ADS1115_MODE_CONTINUOUS, ADS1115_MODE_SINGLESHOT, hdm, setMode_dev_config, setMode_devMode,
        getConversion_config_single, and255_and255, hiLo_shiftRight8m, hiLo_and255, hiLo_mux,
        hiLo_mode, hiLo_rate]
      rw [hm0]
      have hb_lt := and255_lt (s.dev.config >>> 8)
      generalize (s.dev.config >>> 8 &&& 255) = hb at hb_lt ⊢
      revert hb_lt; revert hb; revert hg; revert g
      decide
    · simp [ADS1115.setGain, ADS1115.receive, ADS1115.setRegister,
        ADS1115.send, ADSDevice.read, ADSDevice.write, ADS1115_RA_CONFIG, ADS1115_RA_CONVERSION,
        ADS1115_RA_LO_THRESH, ADS1115_RA_HI_THRESH, ADS1115_CFG_PGA_BIT, ADS1115_CFG_PGA_LENGTH,
        ADS1115_MODE_CONTINUOUS, ADS1115_MODE_SINGLESHOT, hdm, setMode_dev_config, setMode_devMode,
        getConversion_config_single, and255_and255, hiLo_shiftRight8m, hiLo_and255, hiLo_mux,
        hiLo_mode, hiLo_rate]
      exact window5_7 _

/-- C8 (witness). The round-trip theorem applied at gain code 4 and a concrete
coherent state holding the power-up default config value 0x8583 (single-shot
mode, so the cached mode agrees with config bit 8). -/
theorem C8_roundtrip_witness :
    (ADS1115.getGain true (ADS1115.setGain true 4
      ⟨0, 0, 0, 0, 0, 0, true, ⟨0, 0, 34179, 0, 0⟩⟩)).1 = 4 ∧
    ((ADS1115.setGain true 4
      ⟨0, 0, 0, 0, 0, 0, true, ⟨0, 0, 34179, 0, 0⟩⟩).dev.config >>> 12) &&& 7 = 0 ∧
    ((ADS1115.setGain true 4
      ⟨0, 0, 0, 0, 0, 0, true, ⟨0, 0, 34179, 0, 0⟩⟩).dev.config >>> 8) &&& 1 = 1 ∧
    ((ADS1115.setGain true 4
      ⟨0, 0, 0, 0, 0, 0, true, ⟨0, 0, 34179, 0, 0⟩⟩).dev.config >>> 5) &&& 7 = 4 :=
  C8_setGain_getGain_roundtrip 4 ⟨0, 0, 0, 0, 0, 0, true, ⟨0, 0, 34179, 0, 0⟩⟩
    (by decide) (by decide)

/-! ## USART activation and resource rollback (usart.cpp)

The clock-gate and pin-configuration collaborators (rcc.cpp, gpio.cpp) are
code of this repository that is not under src/, so they are modelled from the
spec: the clock gate keeps a per-port reference count (the spec's rollback
property speaks of the clock-gate reference count returning to its pre-call
value), pin configuration is requested per pin, and the alternate-function
routing call acquires the pin's port clock before attempting the routing —
matching the rollback calls of startUart, which release the port clock of a
pin whose routing call itself failed. -/

/-- The GPIO ports (GPIO_ports). -/
inductive RPort where
  | pA
  | pB
  | pC
  | pD
  | pE
  | pF
deriving DecidableEq

/-- The resource state visible to USART::startUart: per-port clock-gate
reference counts, the USART peripheral clock gate, per-pin alternate-function
routing and output electrical parameters, the device active flag and its BRR
and CR1 registers.  Parameter bookkeeping and the NVIC arming of the source
have no effect on this resource state and are omitted. -/
structure UartSysSt where
  portClock : RPort → Nat
  perClock : Bool
  pinAf : RPort → Nat → Option Nat
  pinOut : RPort → Nat → Bool
  uartActive : Bool
  cr1 : Nat
  brr : Nat

/-- Modelled from the spec: Rcc::enablePort increments the port's clock-gate
reference count (idempotent enable: an already-enabled clock gains a holder
and stays enabled). -/
def Rcc.enablePort (p : RPort) (s : UartSysSt) : UartSysSt :=
  { s with portClock := fun q => if q = p then s.portClock q + 1 else s.portClock q }

/-- Modelled from the spec: Rcc::disablePort releases one holder of the port's
clock gate (the clock itself turns off only at count zero). -/
def Rcc.disablePort (p : RPort) (s : UartSysSt) : UartSysSt :=
  { s with portClock := fun q => if q = p then s.portClock q - 1 else s.portClock q }

/-- Modelled from the spec: Rcc::enable acquires the USART peripheral clock;
ok is its success (ResourceUnavailable surfaces as false with no effect). -/
def Rcc.enable (ok : Bool) (s : UartSysSt) : Bool × UartSysSt :=
  if ok then (true, { s with perClock := true }) else (false, s)

/-- Modelled from the spec: GPIO::set_af acquires the pin's port clock through
the gate, then applies the alternate-function routing; on failure (ok = false)
the routing is not applied but the clock acquisition has happened. -/
def Gpio.set_af (ok : Bool) (p : RPort) (pin af : Nat) (s : UartSysSt) :
    Bool × UartSysSt :=
  let s1 := Rcc.enablePort p s
  if ok then
    (true, { s1 with pinAf := fun q n => if q = p ∧ n = pin then some af else s1.pinAf q n })
  else (false, s1)

/-- Modelled from the spec: GPIO::set_output_parameters applies the electrical
parameters to an already-routed pin; on failure nothing changes. -/
def Gpio.set_output_parameters (ok : Bool) (p : RPort) (pin : Nat)
    (s : UartSysSt) : Bool × UartSysSt :=
  if ok then
    (true, { s with pinOut := fun q n => if q = p ∧ n = pin then true else s.pinOut q n })
  else (false, s)

def USART_CR1_UE : Nat := 1
def USART_CR1_RE : Nat := 4
def USART_CR1_TE : Nat := 8
def USART_CR1_RXNEIE : Nat := 32

/-- USART::startUart: parameter validation, TX pin activation (routing plus
output parameters), RX pin activation, peripheral clock acquisition, then BRR
and CR1 writes.  Each failure path performs the compensating Rcc::disablePort
calls of the source before returning false.  The five ok oracles are the
outcomes of the five fallible collaborator steps. -/
def USART.startUart (okTxAf okTxOut okRxAf okRxOut okRcc : Bool)
    (txPort : RPort) (txPin txAf : Nat) (rxPort : RPort) (rxPin rxAf : Nat)
    (clk baud : Nat) (s : UartSysSt) : Bool × UartSysSt :=
  if 15 < txPin ∨ 15 < rxPin then (false, s)
  else if 7 < txAf ∨ 7 < rxAf then (false, s)
  else if s.uartActive then (true, s)
  else
    let r1 := Gpio.set_af okTxAf txPort txPin txAf s
    if r1.1 then
      let r2 := Gpio.set_output_parameters okTxOut txPort txPin r1.2
      if r2.1 then
        let r3 := Gpio.set_af okRxAf rxPort rxPin rxAf r2.2
        if r3.1 then
          let r4 := Gpio.set_output_parameters okRxOut rxPort rxPin r3.2
          if r4.1 then
            let r5 := Rcc.enable okRcc r4.2
            if r5.1 then
              let s5 := { r5.2 with uartActive := true }
              let uartdiv := (clk / baud) % 65536
              let s6 := { s5 with brr := ((uartdiv / 16) <<< 4) ||| (uartdiv % 16) }
              let s7 := { s6 with cr1 := s6.cr1 |||
                (USART_CR1_RE ||| USART_CR1_TE ||| USART_CR1_UE ||| USART_CR1_RXNEIE) }
              (true, s7)
            else (false, Rcc.disablePort rxPort (Rcc.disablePort txPort r5.2))
          else (false, Rcc.disablePort rxPort (Rcc.disablePort txPort r4.2))
        else (false, Rcc.disablePort rxPort (Rcc.disablePort txPort r3.2))
      else (false, Rcc.disablePort txPort r2.2)
    else (false, Rcc.disablePort txPort r1.2)


/-- C9 (amended). Whenever a step of the USART::startUart activation sequence
fails, the call returns false and every clock resource acquired in the call
has been released: each port's clock-gate reference count and the peripheral
clock gate return to their pre-call values on every failure path.  The pin
configuration already applied (alternate-function routing, output parameters)
is, however, not reverted. -/
theorem C9_startUart_failure_releases_clocks
    (okTxAf okTxOut okRxAf okRxOut okRcc : Bool)
    (txPort : RPort) (txPin txAf : Nat) (rxPort : RPort) (rxPin rxAf : Nat)
    (clk baud : Nat) (s : UartSysSt)
    (hf : (USART.startUart okTxAf okTxOut okRxAf okRxOut okRcc
      txPort txPin txAf rxPort rxPin rxAf clk baud s).1 = false) :
    (∀ p, (USART.startUart okTxAf okTxOut okRxAf okRxOut okRcc
      txPort txPin txAf rxPort rxPin rxAf clk baud s).2.portClock p = s.portClock p) ∧
    (USART.startUart okTxAf okTxOut okRxAf okRxOut okRcc
      txPort txPin txAf rxPort rxPin rxAf clk baud s).2.perClock = s.perClock := by
  simp only [USART.startUart] at hf ⊢
  by_cases h1 : (15 < txPin ∨ 15 < rxPin)
  · rw [if_pos h1] at hf ⊢
    exact ⟨fun p => rfl, rfl⟩
  · rw [if_neg h1] at hf ⊢
    by_cases h2 : (7 < txAf ∨ 7 < rxAf)
    · rw [if_pos h2] at hf ⊢
      exact ⟨fun p => rfl, rfl⟩
    · rw [if_neg h2] at hf ⊢
      by_cases h3 : s.uartActive = true
      · rw [if_pos h3] at hf
        exact absurd hf (by simp)
      · rw [if_neg h3] at hf ⊢
        refine ⟨fun p => ?_, ?_⟩ <;>
          (cases okTxAf <;> cases okTxOut <;> cases okRxAf <;> cases okRxOut <;> cases okRcc <;>
            simp [Gpio.set_af, Gpio.set_output_parameters, Rcc.enable,
              Rcc.enablePort, Rcc.disablePort] at hf ⊢ <;>
            (try (split_ifs <;> omega)))


/-- Concrete pre-call resource state for the rollback scenario: no port clock
held, no pin configured, device inactive. -/
def uartCleanSt : UartSysSt :=
  ⟨fun _ => 0, false, fun _ _ => none, fun _ _ => false, false, 0, 0⟩

/-- C9 (counterexample). A two-pin activation on port A in which the TX pin
fully succeeds and the RX routing call fails: startUart returns false and the
clock refcounts are back to zero, but the TX pin is left routed to its
alternate function with its output parameters applied — the pre-call resource
state is not restored, refuting the claim that all acquired pin resources are
released. -/
theorem C9_rollback_leaves_pin_config :
    (USART.startUart true true false true true RPort.pA 2 1 RPort.pA 3 1
      48000000 9600 uartCleanSt).1 = false ∧
    (USART.startUart true true false true true RPort.pA 2 1 RPort.pA 3 1
      48000000 9600 uartCleanSt).2.pinAf RPort.pA 2 = some 1 ∧
    uartCleanSt.pinAf RPort.pA 2 = none ∧
    (USART.startUart true true false true true RPort.pA 2 1 RPort.pA 3 1
      48000000 9600 uartCleanSt).2.pinOut RPort.pA 2 = true := by
  refine ⟨rfl, rfl, rfl, rfl⟩

/-- C9 (witness). The clock-release theorem applied at the concrete failing
two-pin activation above. -/
theorem C9_clock_release_witness :
    (USART.startUart true true false true true RPort.pA 2 1 RPort.pA 3 1
      48000000 9600 uartCleanSt).2.portClock RPort.pA = uartCleanSt.portClock RPort.pA ∧
    (USART.startUart true true false true true RPort.pA 2 1 RPort.pA 3 1
      48000000 9600 uartCleanSt).2.perClock = uartCleanSt.perClock :=
  ⟨(C9_startUart_failure_releases_clocks true true false true true RPort.pA 2 1 RPort.pA 3 1
      48000000 9600 uartCleanSt rfl).1 RPort.pA,
   (C9_startUart_failure_releases_clocks true true false true true RPort.pA 2 1 RPort.pA 3 1
      48000000 9600 uartCleanSt rfl).2⟩

end Nodate
